import Mathlib

/-!
Verification of the spelling-report backend (`src/backend/server.js`).

The server exposes `POST /api/generate-report`. The handler checks the
`GEMINI_API_KEY` environment variable, validates five request-body fields,
and then runs a two-node LangGraph pipeline (analyst node, then reporter
node), each node making one call to the external text-generation
capability. We embed the handler as a pure function of the API key, the
request body, and the capability (a function from prompt to result), and
additionally return the list of prompts sent to the capability, in order,
so that claims about which calls are made (and with what text) can be
stated.
-/

namespace SpellApp

/-- JavaScript values, as far as the handler inspects them: the request
body fields are arbitrary JSON-ish values obtained by destructuring
`req.body` (a missing field destructures to `undefined`). -/
inductive JSValue where
  | undef
  | null
  | bool (b : Bool)
  | num (n : Int)
  | str (s : String)
  | arr (elems : List JSValue)
  | obj (fields : List (String × JSValue))

/-- JavaScript truthiness, used by the `!x` tests in the handler:
`undefined`, `null`, `false`, `0` and the empty string are falsy; arrays
and objects are always truthy. -/
def truthy : JSValue → Bool
  | .undef => false
  | .null => false
  | .bool b => b
  | .num n => decide (n ≠ 0)
  | .str s => !s.isEmpty
  | .arr _ => true
  | .obj _ => true

/-- The `score === undefined` test in the handler. -/
def isUndef : JSValue → Bool
  | .undef => true
  | _ => false

mutual
/-- JavaScript string conversion, as performed by template-literal
interpolation: arrays join their elements with commas rendering
`null`/`undefined` elements as empty, objects render as
`[object Object]`. -/
def jsToString : JSValue → String
  | .undef => "undefined"
  | .null => "null"
  | .bool b => if b then "true" else "false"
  | .num n => toString n
  | .str s => s
  | .arr xs => String.intercalate "," (jsArrElemStrings xs)
  | .obj _ => "[object Object]"

/-- Element renderings for array-to-string conversion. -/
def jsArrElemStrings : List JSValue → List String
  | [] => []
  | .undef :: xs => "" :: jsArrElemStrings xs
  | .null :: xs => "" :: jsArrElemStrings xs
  | x :: xs => jsToString x :: jsArrElemStrings xs
end

/-- Escape one character for a JSON string literal. -/
def jsonEscapeChar (c : Char) : String :=
  if c = '"' then "\\\""
  else if c = '\\' then "\\\\"
  else if c = '\n' then "\\n"
  else if c = '\r' then "\\r"
  else if c = '\t' then "\\t"
  else String.singleton c

/-- Escape a string for a JSON string literal. -/
def jsonEscape (s : String) : String :=
  String.join (s.toList.map jsonEscapeChar)

mutual
/-- `JSON.stringify`, as used on `state.incorrectWords` inside the analyst
prompt. `undefined` has no JSON rendering; interpolated at top level it
would read `undefined`, while inside an array it serialises as `null` and
inside an object the property is dropped. -/
def jsonStringify : JSValue → String
  | .undef => "undefined"
  | .null => "null"
  | .bool b => if b then "true" else "false"
  | .num n => toString n
  | .str s => "\"" ++ jsonEscape s ++ "\""
  | .arr xs => "[" ++ String.intercalate "," (jsonArrElems xs) ++ "]"
  | .obj fs => "\x7b" ++ String.intercalate "," (jsonObjFields fs) ++ "\x7d"

/-- Array element serialisations for `JSON.stringify`. -/
def jsonArrElems : List JSValue → List String
  | [] => []
  | .undef :: xs => "null" :: jsonArrElems xs
  | x :: xs => jsonStringify x :: jsonArrElems xs

/-- Object field serialisations for `JSON.stringify`. -/
def jsonObjFields : List (String × JSValue) → List String
  | [] => []
  | (_, .undef) :: fs => jsonObjFields fs
  | (k, v) :: fs => ("\"" ++ jsonEscape k ++ "\":" ++ jsonStringify v) :: jsonObjFields fs
end

/-- The five fields destructured from `req.body`. A field absent from the
request body is `JSValue.undef`. -/
structure RequestBody where
  studentName : JSValue
  grade : JSValue
  score : JSValue
  totalItems : JSValue
  incorrectWords : JSValue

/-- The input-validation condition of the handler, verbatim:
`!studentName || !grade || score === undefined || !totalItems ||
!incorrectWords`. When it holds the handler returns HTTP 400. -/
def missingFields (b : RequestBody) : Bool :=
  !truthy b.studentName || !truthy b.grade || isUndef b.score
    || !truthy b.totalItems || !truthy b.incorrectWords

/-- A body passes validation when the handler's missing-field condition is
false. -/
def validFields (b : RequestBody) : Bool :=
  !missingFields b

/-- The graph state: the channels declared in `graphState`. The five
request fields are copied in by `appGraph.invoke`; `analysis` and
`report` start at their channel defaults (the empty string) and are
written by the analyst and reporter nodes respectively. -/
structure PipelineState where
  studentName : JSValue
  grade : JSValue
  score : JSValue
  totalItems : JSValue
  incorrectWords : JSValue
  analysis : String
  report : String

/-- The state passed to `appGraph.invoke`: the five validated request
fields, with `analysis` and `report` at their channel defaults. -/
def initState (b : RequestBody) : PipelineState :=
  { studentName := b.studentName
    grade := b.grade
    score := b.score
    totalItems := b.totalItems
    incorrectWords := b.incorrectWords
    analysis := ""
    report := "" }

/-- The analyst node's prompt, transcribed from the template literal in
`analystNode` (indentation of the source template preserved). -/
def analystPrompt (state : PipelineState) : String :=
  "You are a spelling analyst. Your job is to analyze the spelling mistakes of a student and identify patterns. Do not write a report for the student, just provide a technical analysis.\n      \n      Student: "
    ++ jsToString state.studentName
    ++ "\n      Grade: "
    ++ jsToString state.grade
    ++ "\n      Incorrect words (correct -> student\x27s attempt): "
    ++ jsonStringify state.incorrectWords
    ++ "\n      \n      Based on these errors, identify the likely reasons for the mistakes (e.g., phonetic confusion, vowel swaps, silent letters, common typos). Provide a concise, bullet-pointed analysis."

/-- The reporter node's prompt, transcribed from the template literal in
`reporterNode`. -/
def reporterPrompt (state : PipelineState) : String :=
  "You are a friendly and encouraging teacher. Write a personalized report for a student based on the analysis of their spelling mistakes. The report should be in HTML format.\n      \n      Student: "
    ++ jsToString state.studentName
    ++ "\n      Grade: "
    ++ jsToString state.grade
    ++ "\n      Score: "
    ++ jsToString state.score
    ++ "/"
    ++ jsToString state.totalItems
    ++ "\n      Analysis of mistakes: "
    ++ state.analysis
    ++ "\n      \n      Write a report that is positive and provides specific, actionable advice. Start with encouragement, then explain the patterns of mistakes in simple terms, and end with 2-3 clear tips for improvement. Format the output as clean HTML with paragraphs (<p>) and unordered lists (<ul><li>)."

/-- The external generation capability: `model.invoke` on one prompt,
returning the response content or failing with an error message. -/
def GenFn : Type := String → Except String String

/-- Execution of the compiled graph: entry point `analyst`, edge
`analyst -> reporter`, finish point `reporter`. The analyst node calls the
capability on its prompt and writes `analysis`; the reporter node then
calls the capability on its prompt and writes `report`. A rejected call
aborts the run with its error. Besides the result we collect the prompts
sent to the capability, in call order. -/
def runGraph (gen : GenFn) (s0 : PipelineState) :
    Except String PipelineState × List String :=
  let p1 := analystPrompt s0
  match gen p1 with
  | .error e => (.error e, [p1])
  | .ok a =>
    let s1 := { s0 with analysis := a }
    let p2 := reporterPrompt s1
    match gen p2 with
    | .error e => (.error e, [p1, p2])
    | .ok r => (.ok { s1 with report := r }, [p1, p2])

/-- The JSON bodies the handler can respond with. -/
inductive ResponseBody where
  | report (text : String)
  | error (message : String)
  | errorWithDetails (message details : String)
  deriving Repr, DecidableEq

/-- An HTTP response: status code and JSON body. -/
structure Response where
  status : Nat
  body : ResponseBody
  deriving Repr, DecidableEq

/-- The generic 500 message of the catch block. -/
def internalErrorMsg : String :=
  "An internal error occurred while generating the report."

/-- The fixed 400 validation message. -/
def missingFieldsMsg : String :=
  "Missing required fields in request body."

/-- The message of the error thrown when the API key is falsy. -/
def missingKeyMsg : String :=
  "GEMINI_API_KEY environment variable not set."

/-- Truthiness of `process.env.GEMINI_API_KEY`: an unset variable reads as
`undefined` (falsy) and an empty string is also falsy. -/
def apiKeyTruthy : Option String → Bool
  | none => false
  | some s => !s.isEmpty

/-- The `POST /api/generate-report` handler. In source order: the falsy
API key throws (caught below as HTTP 500 with the thrown message as
`details`), then validation returns HTTP 400, then the graph runs and its
final state's `report` is returned with HTTP 200; a stage failure is
caught as HTTP 500 with the failure message as `details`. The second
component is the list of capability prompts issued for the request. -/
def handleGenerateReport (apiKey : Option String) (b : RequestBody)
    (gen : GenFn) : Response × List String :=
  if !apiKeyTruthy apiKey then
    (⟨500, .errorWithDetails internalErrorMsg missingKeyMsg⟩, [])
  else if missingFields b then
    (⟨400, .error missingFieldsMsg⟩, [])
  else
    match runGraph gen (initState b) with
    | (.error e, calls) =>
      (⟨500, .errorWithDetails internalErrorMsg e⟩, calls)
    | (.ok finalState, calls) =>
      (⟨200, .report finalState.report⟩, calls)

/-- One string occurs verbatim inside another. -/
def containsText (haystack needle : String) : Prop :=
  ∃ before after, haystack = before ++ needle ++ after

/-- Whether a value is the number 0 (for the spec-worded validity). -/
def isNumZero : JSValue → Bool
  | .num n => decide (n = 0)
  | _ => false

/-- Validity of a request body as the spec words it (modelled from the
spec for comparison with the implemented `validFields`): all five fields
present and non-falsy, with the single exception that a score equal to
the number 0 still counts as present. -/
def specC6Valid (b : RequestBody) : Bool :=
  truthy b.studentName && truthy b.grade
    && (truthy b.score || isNumZero b.score)
    && truthy b.totalItems && truthy b.incorrectWords

/-! ### Helper lemmas -/

/-- On a truthy key and a body passing validation, the handler defers to
the graph run. -/
theorem handleGenerateReport_valid (apiKey : Option String)
    (b : RequestBody) (gen : GenFn) (hkey : apiKeyTruthy apiKey = true)
    (hvalid : validFields b = true) :
    handleGenerateReport apiKey b gen =
      (match runGraph gen (initState b) with
       | (.error e, calls) => (⟨500, .errorWithDetails internalErrorMsg e⟩, calls)
       | (.ok finalState, calls) => (⟨200, .report finalState.report⟩, calls)) := by
  have hm : missingFields b = false := by simpa [validFields] using hvalid
  simp [handleGenerateReport, hkey, hm]

/-- The reporter prompt carries the state's `analysis` field verbatim. -/
theorem reporterPrompt_carries_analysis (s : PipelineState) :
    containsText (reporterPrompt s) s.analysis :=
  ⟨"You are a friendly and encouraging teacher. Write a personalized report for a student based on the analysis of their spelling mistakes. The report should be in HTML format.\n      \n      Student: "
      ++ jsToString s.studentName
      ++ "\n      Grade: "
      ++ jsToString s.grade
      ++ "\n      Score: "
      ++ jsToString s.score
      ++ "/"
      ++ jsToString s.totalItems
      ++ "\n      Analysis of mistakes: ",
   "\n      \n      Write a report that is positive and provides specific, actionable advice. Start with encouragement, then explain the patterns of mistakes in simple terms, and end with 2-3 clear tips for improvement. Format the output as clean HTML with paragraphs (<p>) and unordered lists (<ul><li>).",
   rfl⟩

/-- The analyst prompt carries the JSON serialisation of the state's
`incorrectWords` field verbatim. -/
theorem analystPrompt_carries_words (s : PipelineState) :
    containsText (analystPrompt s) (jsonStringify s.incorrectWords) :=
  ⟨"You are a spelling analyst. Your job is to analyze the spelling mistakes of a student and identify patterns. Do not write a report for the student, just provide a technical analysis.\n      \n      Student: "
      ++ jsToString s.studentName
      ++ "\n      Grade: "
      ++ jsToString s.grade
      ++ "\n      Incorrect words (correct -> student\x27s attempt): ",
   "\n      \n      Based on these errors, identify the likely reasons for the mistakes (e.g., phonetic confusion, vowel swaps, silent letters, common typos). Provide a concise, bullet-pointed analysis.",
   rfl⟩

/-! ### Sample inputs used by witnesses -/

/-- Sample valid request body (the scenario of the spec). -/
def wBody : RequestBody :=
  { studentName := JSValue.str "Alex"
    grade := JSValue.num 3
    score := JSValue.num 7
    totalItems := JSValue.num 10
    incorrectWords := JSValue.arr
      [JSValue.obj [("correct", JSValue.str "friend"), ("attempt", JSValue.str "freind")]] }

/-- Sample capability returning fixed text for every prompt. -/
def wGen : GenFn := fun _ => Except.ok "- vowel swap pattern"

/-- Sample capability failing every call. -/
def wFailGen : GenFn := fun _ => Except.error "capability unavailable"

/-- Sample request body with every field absent. -/
def wEmptyReq : RequestBody :=
  { studentName := JSValue.undef
    grade := JSValue.undef
    score := JSValue.undef
    totalItems := JSValue.undef
    incorrectWords := JSValue.undef }

/-! ### Claim theorems -/

/-- C1: for every valid request (truthy key, body passing validation)
whose analyst call returns text `a`, the capability is called exactly on
the analyst prompt and then on the reporter prompt built from the state
holding `analysis = a`, in that order, and that reporter prompt contains
`a` verbatim. -/
theorem reporter_prompt_contains_analyst_result
    (apiKey : Option String) (b : RequestBody) (gen : GenFn) (a : String)
    (hkey : apiKeyTruthy apiKey = true) (hvalid : validFields b = true)
    (hfirst : gen (analystPrompt (initState b)) = .ok a) :
    (handleGenerateReport apiKey b gen).2 =
      [analystPrompt (initState b),
       reporterPrompt { initState b with analysis := a }] ∧
    containsText (reporterPrompt { initState b with analysis := a }) a := by
  refine ⟨?_, reporterPrompt_carries_analysis _⟩
  rw [handleGenerateReport_valid apiKey b gen hkey hvalid]
  cases h2 : gen (reporterPrompt { initState b with analysis := a }) <;>
    simp [runGraph, hfirst, h2]

/-- C1 witness: the sample body with a fixed-text capability. -/
theorem reporter_prompt_contains_analyst_result_witness :
    (handleGenerateReport (some "test-key") wBody wGen).2 =
      [analystPrompt (initState wBody),
       reporterPrompt { initState wBody with analysis := "- vowel swap pattern" }] ∧
    containsText
      (reporterPrompt { initState wBody with analysis := "- vowel swap pattern" })
      "- vowel swap pattern" :=
  reporter_prompt_contains_analyst_result (some "test-key") wBody wGen
    "- vowel swap pattern" rfl (by decide) rfl

/-- C2: on a truthy key, a request missing any of the five fields gets
HTTP 400 with the fixed validation body, and no capability call is
made. -/
theorem missing_field_yields_400_no_capability_call
    (apiKey : Option String) (b : RequestBody) (gen : GenFn)
    (hkey : apiKeyTruthy apiKey = true)
    (hmissing : b.studentName = JSValue.undef ∨ b.grade = JSValue.undef ∨
      b.score = JSValue.undef ∨ b.totalItems = JSValue.undef ∨
      b.incorrectWords = JSValue.undef) :
    handleGenerateReport apiKey b gen =
      (⟨400, .error missingFieldsMsg⟩, []) := by
  have hm : missingFields b = true := by
    rcases hmissing with h | h | h | h | h <;> simp [missingFields, h, truthy, isUndef]
  simp [handleGenerateReport, hkey, hm]

/-- C2 witness: a request with every field absent. -/
theorem missing_field_yields_400_no_capability_call_witness :
    handleGenerateReport (some "test-key") wEmptyReq wGen =
      (⟨400, .error missingFieldsMsg⟩, []) :=
  missing_field_yields_400_no_capability_call (some "test-key") wEmptyReq wGen
    rfl (Or.inl rfl)

/-- C3: with the credential unset, every request gets HTTP 500 carrying
the configuration-error message, and no capability call is made. -/
theorem absent_api_key_yields_500_no_capability_call
    (b : RequestBody) (gen : GenFn) :
    handleGenerateReport none b gen =
      (⟨500, .errorWithDetails internalErrorMsg missingKeyMsg⟩, []) := rfl

/-- C4: on a valid request whose two stage calls return `a` then `r`, the
response is HTTP 200 with body exactly `report r`: the analysis text is
not part of the response. -/
theorem success_returns_reporter_text_only
    (apiKey : Option String) (b : RequestBody) (gen : GenFn) (a r : String)
    (hkey : apiKeyTruthy apiKey = true) (hvalid : validFields b = true)
    (h1 : gen (analystPrompt (initState b)) = .ok a)
    (h2 : gen (reporterPrompt { initState b with analysis := a }) = .ok r) :
    (handleGenerateReport apiKey b gen).1 = ⟨200, .report r⟩ := by
  rw [handleGenerateReport_valid apiKey b gen hkey hvalid]
  simp [runGraph, h1, h2]

/-- C4 witness: the sample body with a fixed-text capability. -/
theorem success_returns_reporter_text_only_witness :
    (handleGenerateReport (some "test-key") wBody wGen).1 =
      ⟨200, .report "- vowel swap pattern"⟩ :=
  success_returns_reporter_text_only (some "test-key") wBody wGen
    "- vowel swap pattern" "- vowel swap pattern" rfl (by decide) rfl rfl

/-- C5: on a valid request whose analyst call fails with message `e`, the
capability is called only on the analyst prompt (the reporter is never
invoked) and the response is HTTP 500 with the generic message and `e` as
details. -/
theorem analyst_failure_skips_reporter
    (apiKey : Option String) (b : RequestBody) (gen : GenFn) (e : String)
    (hkey : apiKeyTruthy apiKey = true) (hvalid : validFields b = true)
    (hfail : gen (analystPrompt (initState b)) = .error e) :
    handleGenerateReport apiKey b gen =
      (⟨500, .errorWithDetails internalErrorMsg e⟩,
       [analystPrompt (initState b)]) := by
  rw [handleGenerateReport_valid apiKey b gen hkey hvalid]
  simp [runGraph, hfail]

/-- C5 witness: the sample body with a capability failing every call. -/
theorem analyst_failure_skips_reporter_witness :
    handleGenerateReport (some "test-key") wBody wFailGen =
      (⟨500, .errorWithDetails internalErrorMsg "capability unavailable"⟩,
       [analystPrompt (initState wBody)]) :=
  analyst_failure_skips_reporter (some "test-key") wBody wFailGen
    "capability unavailable" rfl (by decide) rfl

/-- Request body whose score is `null` and whose other fields are
non-falsy. -/
def scoreNullReq : RequestBody :=
  { studentName := JSValue.str "Alex"
    grade := JSValue.num 3
    score := JSValue.null
    totalItems := JSValue.num 10
    incorrectWords := JSValue.arr [] }

/-- C6 counterexample: a body with a `null` score passes the implemented
validation although the spec-worded criterion (non-falsy, or the number
0) rejects it, so the two do not coincide. -/
theorem validation_not_spec_worded_cex :
    validFields scoreNullReq = true ∧ specC6Valid scoreNullReq = false := by
  decide

/-- C6 (amended): validation accepts exactly the bodies whose
`studentName`, `grade`, `totalItems` and `incorrectWords` are non-falsy
and whose `score` is not undefined; every body passing validation has the
graph invoked, its first capability call being the analyst prompt. -/
theorem validation_iff_score_not_undefined
    (b : RequestBody) (apiKey : Option String) (gen : GenFn)
    (hkey : apiKeyTruthy apiKey = true) :
    (validFields b = true ↔
      (truthy b.studentName = true ∧ truthy b.grade = true ∧
       isUndef b.score = false ∧ truthy b.totalItems = true ∧
       truthy b.incorrectWords = true)) ∧
    (validFields b = true →
      ((handleGenerateReport apiKey b gen).2).head? =
        some (analystPrompt (initState b))) := by
  constructor
  · simp [validFields, missingFields, and_assoc]
  · intro hvalid
    rw [handleGenerateReport_valid apiKey b gen hkey hvalid]
    cases h1 : gen (analystPrompt (initState b)) with
    | error e => simp [runGraph, h1]
    | ok a =>
      cases h2 : gen (reporterPrompt { initState b with analysis := a }) <;>
        simp [runGraph, h1, h2]

/-- Request body identical to the sample one except that the score is the
number 0. -/
def wZeroScoreReq : RequestBody :=
  { studentName := JSValue.str "Alex"
    grade := JSValue.num 3
    score := JSValue.num 0
    totalItems := JSValue.num 10
    incorrectWords := JSValue.arr
      [JSValue.obj [("correct", JSValue.str "friend"), ("attempt", JSValue.str "freind")]] }

/-- C6 witness: the score-0 body. -/
theorem validation_iff_score_not_undefined_witness :
    ((validFields wZeroScoreReq = true ↔
      (truthy wZeroScoreReq.studentName = true ∧ truthy wZeroScoreReq.grade = true ∧
       isUndef wZeroScoreReq.score = false ∧ truthy wZeroScoreReq.totalItems = true ∧
       truthy wZeroScoreReq.incorrectWords = true)) ∧
    (validFields wZeroScoreReq = true →
      ((handleGenerateReport (some "test-key") wZeroScoreReq wGen).2).head? =
        some (analystPrompt (initState wZeroScoreReq)))) :=
  validation_iff_score_not_undefined wZeroScoreReq (some "test-key") wGen rfl

/-- C7: the handler is a pure function of the key, the body and the
capability, so two runs on identical input that both produce a report
body produce the same report text. -/
theorem pipeline_two_run_determinism
    (apiKey : Option String) (b : RequestBody) (gen : GenFn) (r1 r2 : String)
    (run1 : (handleGenerateReport apiKey b gen).1.body = ResponseBody.report r1)
    (run2 : (handleGenerateReport apiKey b gen).1.body = ResponseBody.report r2) :
    r1 = r2 :=
  ResponseBody.report.inj (run1.symm.trans run2)

/-- C7 witness: two runs of the sample body with a fixed-text
capability. -/
theorem pipeline_two_run_determinism_witness :
    (handleGenerateReport (some "test-key") wBody wGen).1.body =
      ResponseBody.report "- vowel swap pattern" ∧
    ("- vowel swap pattern" : String) = "- vowel swap pattern" :=
  ⟨by decide,
   pipeline_two_run_determinism (some "test-key") wBody wGen
     "- vowel swap pattern" "- vowel swap pattern" (by decide) (by decide)⟩

/-- C8: a body whose `incorrectWords` is the empty array and whose other
fields are valid passes validation; with a total capability both stages
are called (analyst prompt then reporter prompt), the analyst prompt
embeds the serialised empty list `[]`, and the response is HTTP 200 with
the reporter call's text. -/
theorem empty_incorrect_words_full_run
    (apiKey : Option String) (b : RequestBody) (f : String → String)
    (hkey : apiKeyTruthy apiKey = true)
    (hwords : b.incorrectWords = JSValue.arr [])
    (hn : truthy b.studentName = true) (hg : truthy b.grade = true)
    (hs : isUndef b.score = false) (ht : truthy b.totalItems = true) :
    validFields b = true ∧
    (handleGenerateReport apiKey b (fun p => Except.ok (f p))).2 =
      [analystPrompt (initState b),
       reporterPrompt
         { initState b with analysis := f (analystPrompt (initState b)) }] ∧
    containsText (analystPrompt (initState b)) "[]" ∧
    (handleGenerateReport apiKey b (fun p => Except.ok (f p))).1 =
      ⟨200, .report (f (reporterPrompt
        { initState b with analysis := f (analystPrompt (initState b)) }))⟩ := by
  have hwt : truthy b.incorrectWords = true := by rw [hwords]; rfl
  have hvalid : validFields b = true := by
    simp [validFields, missingFields, hn, hg, hs, ht, hwt]
  have hcontains : containsText (analystPrompt (initState b)) "[]" := by
    have hser : jsonStringify (initState b).incorrectWords = "[]" := by
      rw [show (initState b).incorrectWords = b.incorrectWords from rfl, hwords]
      decide
    have h := analystPrompt_carries_words (initState b)
    rwa [hser] at h
  refine ⟨hvalid, ?_, hcontains, ?_⟩ <;>
    rw [handleGenerateReport_valid apiKey b _ hkey hvalid] <;>
    simp [runGraph]

/-- C8 witness: the sample body with `incorrectWords` emptied and a
fixed-text capability. -/
theorem empty_incorrect_words_full_run_witness :
    validFields scoreNullReq = true ∧
    (handleGenerateReport (some "test-key") scoreNullReq
        (fun p => Except.ok ((fun _ => "OK") p))).2 =
      [analystPrompt (initState scoreNullReq),
       reporterPrompt
         { initState scoreNullReq with
             analysis := (fun _ => "OK") (analystPrompt (initState scoreNullReq)) }] ∧
    containsText (analystPrompt (initState scoreNullReq)) "[]" ∧
    (handleGenerateReport (some "test-key") scoreNullReq
        (fun p => Except.ok ((fun _ => "OK") p))).1 =
      ⟨200, .report ((fun _ => "OK") (reporterPrompt
        { initState scoreNullReq with
            analysis := (fun _ => "OK") (analystPrompt (initState scoreNullReq)) }))⟩ :=
  empty_incorrect_words_full_run (some "test-key") scoreNullReq
    (fun _ => "OK") rfl rfl (by decide) (by decide) rfl (by decide)

/-- C9: with the credential unset, even a body failing field validation
gets the HTTP 500 configuration error (never the 400 validation
response), with no capability call: the credential check precedes
validation. -/
theorem absent_key_precedes_validation
    (b : RequestBody) (gen : GenFn) (_hinvalid : validFields b = false) :
    handleGenerateReport none b gen =
      (⟨500, .errorWithDetails internalErrorMsg missingKeyMsg⟩, []) ∧
    (handleGenerateReport none b gen).1.status ≠ 400 := by
  exact ⟨rfl, by simp [handleGenerateReport, apiKeyTruthy]⟩

/-- C9 witness: the body with every field absent and no credential. -/
theorem absent_key_precedes_validation_witness :
    handleGenerateReport none wEmptyReq wGen =
      (⟨500, .errorWithDetails internalErrorMsg missingKeyMsg⟩, []) ∧
    (handleGenerateReport none wEmptyReq wGen).1.status ≠ 400 :=
  absent_key_precedes_validation wEmptyReq wGen (by decide)

/-- Request body with a `null` score and non-falsy other fields, used to
witness that only an undefined score is rejected. -/
def wNullScoreReq : RequestBody :=
  { studentName := JSValue.str "Sam"
    grade := JSValue.str "3rd"
    score := JSValue.null
    totalItems := JSValue.num 12
    incorrectWords := JSValue.arr
      [JSValue.obj [("correct", JSValue.str "because"), ("attempt", JSValue.str "becuase")]] }

/-- C10: when the other four fields are non-falsy, validation accepts the
body exactly when the score is not undefined (so `null`, `false`, the
empty string and every number pass), and any accepted body has the graph
invoked with the analyst prompt as the first capability call. -/
theorem score_rejected_only_when_undefined
    (b : RequestBody) (apiKey : Option String) (gen : GenFn)
    (hkey : apiKeyTruthy apiKey = true)
    (hn : truthy b.studentName = true) (hg : truthy b.grade = true)
    (ht : truthy b.totalItems = true) (hw : truthy b.incorrectWords = true) :
    (validFields b = true ↔ isUndef b.score = false) ∧
    (isUndef b.score = false →
      ((handleGenerateReport apiKey b gen).2).head? =
        some (analystPrompt (initState b))) := by
  have hiff : validFields b = true ↔ isUndef b.score = false := by
    simp [validFields, missingFields, hn, hg, ht, hw]
  refine ⟨hiff, fun hs => ?_⟩
  rw [handleGenerateReport_valid apiKey b gen hkey (hiff.mpr hs)]
  cases h1 : gen (analystPrompt (initState b)) with
  | error e => simp [runGraph, h1]
  | ok a =>
    cases h2 : gen (reporterPrompt { initState b with analysis := a }) <;>
      simp [runGraph, h1, h2]

/-- C10 witness: the null-score body. -/
theorem score_rejected_only_when_undefined_witness :
    ((validFields wNullScoreReq = true ↔ isUndef wNullScoreReq.score = false) ∧
    (isUndef wNullScoreReq.score = false →
      ((handleGenerateReport (some "test-key") wNullScoreReq wGen).2).head? =
        some (analystPrompt (initState wNullScoreReq)))) :=
  score_rejected_only_when_undefined wNullScoreReq (some "test-key") wGen
    rfl (by decide) (by decide) (by decide) (by decide)

end SpellApp
